import Mathlib

/-!
Shallow embedding of the scale-backend-api subscription and usage-metering
routes. Dates are modelled as integer milliseconds since the epoch; the
mutable Mongo user document becomes an immutable record threaded through
pure state-transition functions, one per route handler (or handler branch)
of `src/routes/usage.ts`, `src/routes/subscription.ts` and
`src/routes/webhooks.ts`, plus the schema methods of `models/User.ts`.
-/

namespace Scale

/-- Subscription tiers, from `SubscriptionTier` in `models/User.ts`
(fan = basic, developer = mid, enterprise = top). -/
inductive SubscriptionTier
  | fan
  | developer
  | enterprise
deriving DecidableEq

/-- Subscription statuses, from `SubscriptionStatus` in `models/User.ts`. -/
inductive SubscriptionStatus
  | active
  | inactive
  | cancelled
  | expired
  | trial
deriving DecidableEq

/-- Usage event types, from `UsageEventType` in `models/UsageEvent.ts`. -/
inductive UsageEventType
  | prompt
  | code_completion
  | dependency_visualization
  | knowledge_base
  | fine_tuning
  | chat
  | agent
deriving DecidableEq

/-- `IUsageQuota` from `models/User.ts`. -/
structure UsageQuota where
  promptsPerMonth : Int
  promptsUsed : Int
  resetDate : Int
  lastResetDate : Option Int
deriving DecidableEq

/-- `ISubscription` from `models/User.ts` (payment-method field omitted:
no route reads or writes it). -/
structure Subscription where
  tier : SubscriptionTier
  status : SubscriptionStatus
  startDate : Int
  endDate : Option Int
  renewalDate : Option Int
  goDaddySubscriptionId : Option String
  goDaddyCustomerId : Option String
  trialEndDate : Option Int
  isTrialActive : Bool
deriving DecidableEq

/-- The `metadata` sub-document of `IUser`. -/
structure UserMetadata where
  extensionVersion : Option String
  lastActiveDate : Option Int
  installationId : Option String
  source : Option String
deriving DecidableEq

/-- `IUser` from `models/User.ts`. -/
structure User where
  userId : String
  email : Option String
  subscription : Subscription
  usageQuota : UsageQuota
  features : List String
  metadata : UserMetadata
deriving DecidableEq

/-- JavaScript truthiness of an optional string: `undefined` and the empty
string are falsy, every other string is truthy. -/
def jsTruthy : Option String → Bool
  | none => false
  | some s => decide (s ≠ "")

/-- Thirty days in milliseconds, the quota reset period used throughout
the routes (`30 * 24 * 60 * 60 * 1000`). -/
def thirtyDays : Int := 30 * 24 * 60 * 60 * 1000

/-- Tier configuration table, from `getTierConfiguration` in
`routes/subscription.ts` (the copy in `routes/webhooks.ts` is identical). -/
structure TierConfig where
  promptsPerMonth : Int
  features : List String
deriving DecidableEq

/-- `getTierConfiguration` from `routes/subscription.ts` lines 392-415:
fan gets 75 prompts/month, developer and enterprise are unlimited (−1).
The source's `default` branch returns the fan configuration and is
unreachable once the tier is a member of the closed enum. -/
def getTierConfiguration : SubscriptionTier → TierConfig
  | .fan =>
      { promptsPerMonth := 75,
        features := ["chat", "agent", "codeCompletion"] }
  | .developer =>
      { promptsPerMonth := -1,
        features := ["chat", "agent", "codeCompletion",
                     "dependencyVisualization", "knowledgeBase"] }
  | .enterprise =>
      { promptsPerMonth := -1,
        features := ["chat", "agent", "codeCompletion",
                     "dependencyVisualization", "knowledgeBase",
                     "fineTuning", "rbac", "auditLogging", "sso"] }

/-- Outcome of the `POST /usage/track` handler, one constructor per
HTTP response it can produce for a resolved user. -/
inductive TrackOutcome
  | featureNotAvailable
  | usageLimitExceeded
  | success
deriving DecidableEq

/-- `POST /usage/track` from `routes/usage.ts` lines 37-95, for a user that
was found: the feature-entitlement check (403), then for prompt/chat/agent
events the quota check (429 when no remaining prompts and the quota is not
unlimited) and the increment of `promptsUsed` with a `lastActiveDate`
touch; other event types skip the quota block entirely. Returns the HTTP
outcome and the saved user state. -/
def trackUsage (user : User) (ty : UsageEventType) (feature : String)
    (now : Int) : TrackOutcome × User :=
  if feature ∈ user.features then
    if ty = UsageEventType.prompt ∨ ty = UsageEventType.chat ∨
        ty = UsageEventType.agent then
      if ¬(user.usageQuota.promptsPerMonth = -1 ∨
            user.usageQuota.promptsUsed < user.usageQuota.promptsPerMonth) ∧
          user.usageQuota.promptsPerMonth ≠ -1 then
        (TrackOutcome.usageLimitExceeded, user)
      else
        (TrackOutcome.success,
          { user with
              usageQuota :=
                { user.usageQuota with
                    promptsUsed := user.usageQuota.promptsUsed + 1 },
              metadata :=
                { user.metadata with lastActiveDate := some now } })
    else
      (TrackOutcome.success, user)
  else
    (TrackOutcome.featureNotAvailable, user)

/-- Iterated `POST /usage/track` calls: the user state after `n` calls with
the same event type and feature. -/
def trackN (u : User) (ty : UsageEventType) (f : String) (now : Int) :
    Nat → User
  | 0 => u
  | n + 1 => (trackUsage (trackN u ty f now n) ty f now).2

/-- The user state after an arbitrary sequence of `POST /usage/track`
calls, each given by an event type and a feature. -/
def trackSeq (u : User) (calls : List (UsageEventType × String))
    (now : Int) : User :=
  calls.foldl (fun acc c => (trackUsage acc c.1 c.2 now).2) u

/-- The inline quota-rollover step of `POST /subscription/verify`
(`routes/subscription.ts` lines 60-64): when `resetDate < now` strictly,
`promptsUsed` is zeroed and `resetDate` moved 30 days forward; no other
quota field is touched. -/
def maybeRolloverQuota (u : User) (now : Int) : User :=
  if u.usageQuota.resetDate < now then
    { u with
        usageQuota :=
          { u.usageQuota with
              promptsUsed := 0,
              resetDate := now + thirtyDays } }
  else u

/-- The existing-user branch of `POST /subscription/verify`
(`routes/subscription.ts` lines 54-67): refresh metadata, then perform the
inline quota rollover. -/
def verifyExistingUserUpdate (u : User) (extensionVersion source : Option String)
    (now : Int) : User :=
  maybeRolloverQuota
    { u with
        metadata :=
          { u.metadata with
              lastActiveDate := some now,
              extensionVersion :=
                if jsTruthy extensionVersion then extensionVersion
                else u.metadata.extensionVersion,
              source :=
                if jsTruthy source then source else u.metadata.source } }
    now

/-- `UserSchema.methods.resetUsageQuota` from `models/User.ts` lines
129-133: unconditionally zero `promptsUsed`, stamp `lastResetDate = now`
and push `resetDate` 30 days out. -/
def resetUsageQuota (u : User) (now : Int) : User :=
  { u with
      usageQuota :=
        { u.usageQuota with
            promptsUsed := 0,
            lastResetDate := some now,
            resetDate := now + thirtyDays } }

/-- `PUT /subscription/update/:userId` from `routes/subscription.ts` lines
148-165, for a resolved user: set tier and status, store the GoDaddy ids
when truthy, then overwrite `features` and `promptsPerMonth` from the tier
configuration. -/
def updateSubscription (u : User) (tier : SubscriptionTier)
    (status : SubscriptionStatus)
    (goDaddySubscriptionId goDaddyCustomerId : Option String) : User :=
  let sub := { u.subscription with tier := tier, status := status }
  let sub :=
    if jsTruthy goDaddySubscriptionId then
      { sub with goDaddySubscriptionId := goDaddySubscriptionId }
    else sub
  let sub :=
    if jsTruthy goDaddyCustomerId then
      { sub with goDaddyCustomerId := goDaddyCustomerId }
    else sub
  let cfg := getTierConfiguration tier
  { u with
      subscription := sub,
      features := cfg.features,
      usageQuota := { u.usageQuota with promptsPerMonth := cfg.promptsPerMonth } }

/-- `mapPlanIdToTier` from `routes/webhooks.ts` lines 255-266. -/
def mapPlanIdToTier (planId : String) : SubscriptionTier :=
  match planId with
  | "scale-fan" => .fan
  | "scale-developer" => .developer
  | "scale-enterprise" => .enterprise
  | _ => .fan

/-- `mapGoDaddyStatusToSubscriptionStatus` from `routes/webhooks.ts` lines
268-281. -/
def mapGoDaddyStatusToSubscriptionStatus (status : String) : SubscriptionStatus :=
  match status.toLower with
  | "active" => .active
  | "cancelled" => .cancelled
  | "expired" => .expired
  | "inactive" => .inactive
  | _ => .inactive

/-- The state update of `handleSubscriptionCreated` (`routes/webhooks.ts`
lines 98-115) applied to the resolved-or-created user: tier from the plan
id, status active, GoDaddy ids stored, trial cleared, then `features` and
`promptsPerMonth` from the tier configuration. -/
def applySubscriptionCreated (u : User)
    (subscriptionId customerId planId : String)
    (customerEmail : Option String) (now : Int) : User :=
  let tier := mapPlanIdToTier planId
  let cfg := getTierConfiguration tier
  { u with
      subscription :=
        { u.subscription with
            tier := tier,
            status := .active,
            goDaddySubscriptionId := some subscriptionId,
            goDaddyCustomerId := some customerId,
            startDate := now,
            isTrialActive := false },
      email := if jsTruthy customerEmail then customerEmail else u.email,
      features := cfg.features,
      usageQuota := { u.usageQuota with promptsPerMonth := cfg.promptsPerMonth } }

/-- The state update of `handleSubscriptionUpdated` (`routes/webhooks.ts`
lines 134-150) applied to the resolved user: when a truthy plan id is
present, apply its tier with the tier-configuration overwrite; when a
truthy status string is present, map and store it. -/
def applySubscriptionUpdated (u : User) (planId status : Option String) : User :=
  let u1 :=
    if jsTruthy planId then
      let newTier := mapPlanIdToTier (planId.getD "")
      let cfg := getTierConfiguration newTier
      { u with
          subscription := { u.subscription with tier := newTier },
          features := cfg.features,
          usageQuota :=
            { u.usageQuota with promptsPerMonth := cfg.promptsPerMonth } }
    else u
  if jsTruthy status then
    { u1 with
        subscription :=
          { u1.subscription with
              status := mapGoDaddyStatusToSubscriptionStatus (status.getD "") } }
  else u1

/-- The state update of `handleSubscriptionExpired` (`routes/webhooks.ts`
lines 191-200) applied to the resolved user: status expired, end date now,
tier forced back to fan with the fan tier configuration. -/
def applySubscriptionExpired (u : User) (now : Int) : User :=
  let cfg := getTierConfiguration .fan
  { u with
      subscription :=
        { u.subscription with
            status := .expired,
            endDate := some now,
            tier := .fan },
      features := cfg.features,
      usageQuota := { u.usageQuota with promptsPerMonth := cfg.promptsPerMonth } }

/-- `User.findOne({'subscription.goDaddySubscriptionId': subscriptionId})`
over an explicit store: the first user whose stored GoDaddy subscription
id matches. -/
def findBySubscriptionId : List User → String → Option User
  | [], _ => none
  | u :: rest, sid =>
      if u.subscription.goDaddySubscriptionId = some sid then some u
      else findBySubscriptionId rest sid

/-- `handleSubscriptionExpired` from `routes/webhooks.ts` lines 181-206:
resolve the user by subscription id (a miss is logged and the store is
untouched, modelled as `none`), otherwise save the expired-update. -/
def handleSubscriptionExpired (store : List User) (subscriptionId : String)
    (now : Int) : Option User :=
  (findBySubscriptionId store subscriptionId).map
    (fun u => applySubscriptionExpired u now)

/-- A `usageQuota` object of an HTTP response body. -/
structure QuotaResponse where
  promptsPerMonth : Int
  promptsUsed : Int
  promptsRemaining : Int
  resetDate : Int
deriving DecidableEq

/-- The `usageQuota` object of the `POST /subscription/verify` response
(`routes/subscription.ts` lines 100-105): plain subtraction, no unlimited
special case and no floor at zero. -/
def verifyQuotaResponse (u : User) : QuotaResponse :=
  { promptsPerMonth := u.usageQuota.promptsPerMonth,
    promptsUsed := u.usageQuota.promptsUsed,
    promptsRemaining := u.usageQuota.promptsPerMonth - u.usageQuota.promptsUsed,
    resetDate := u.usageQuota.resetDate }

/-- The `usageQuota` object of the `GET /subscription/:userId` response
(`routes/subscription.ts` lines 223-228): same plain subtraction. -/
def getSubscriptionQuotaResponse (u : User) : QuotaResponse :=
  { promptsPerMonth := u.usageQuota.promptsPerMonth,
    promptsUsed := u.usageQuota.promptsUsed,
    promptsRemaining := u.usageQuota.promptsPerMonth - u.usageQuota.promptsUsed,
    resetDate := u.usageQuota.resetDate }

/-- The `usageQuota` object of the `POST /usage/track` success response
(`routes/usage.ts` lines 88-94): −1 when unlimited, otherwise the
difference floored at zero. -/
def trackQuotaResponse (u : User) : QuotaResponse :=
  { promptsPerMonth := u.usageQuota.promptsPerMonth,
    promptsUsed := u.usageQuota.promptsUsed,
    promptsRemaining :=
      if u.usageQuota.promptsPerMonth = -1 then -1
      else max 0 (u.usageQuota.promptsPerMonth - u.usageQuota.promptsUsed),
    resetDate := u.usageQuota.resetDate }

/-- Result of the webhook signature gate of
`POST /webhooks/godaddy/subscription` (`routes/webhooks.ts` lines 11-25):
either the request is rejected with 401, or control proceeds to
`JSON.parse` and event dispatch. -/
inductive GateResult
  | rejected401
  | proceed
deriving DecidableEq

/-- The signature gate of `POST /webhooks/godaddy/subscription`
(`routes/webhooks.ts` lines 11-25), parametric in the HMAC-SHA256-hex
function supplied by the crypto library: the comparison runs only when
both the configured secret and the signature header are truthy, and
rejects with 401 exactly when the header differs from the computed
digest. -/
def signatureGate (hmacHex : String → String → String)
    (secret signature : Option String) (body : String) : GateResult :=
  if jsTruthy secret && jsTruthy signature then
    if signature.getD "" ≠ hmacHex (secret.getD "") body then
      GateResult.rejected401
    else GateResult.proceed
  else GateResult.proceed

/-! Helper lemmas about the usage-tracking step. -/

/-- A tracking call never changes `promptsPerMonth`, `resetDate`,
`lastResetDate` or `features`, and never decreases `promptsUsed`. -/
lemma trackUsage_preserves (u : User) (ty : UsageEventType) (f : String)
    (now : Int) :
    (trackUsage u ty f now).2.usageQuota.promptsPerMonth =
      u.usageQuota.promptsPerMonth ∧
    (trackUsage u ty f now).2.usageQuota.resetDate = u.usageQuota.resetDate ∧
    (trackUsage u ty f now).2.usageQuota.lastResetDate =
      u.usageQuota.lastResetDate ∧
    (trackUsage u ty f now).2.features = u.features ∧
    u.usageQuota.promptsUsed ≤ (trackUsage u ty f now).2.usageQuota.promptsUsed := by
  unfold trackUsage
  split_ifs <;> simp

/-- A quota-counted tracking call with an entitled feature and remaining
quota succeeds and increments `promptsUsed` by one. -/
lemma trackUsage_success_step (u : User) (ty : UsageEventType) (f : String)
    (now : Int) (hf : f ∈ u.features)
    (hty : ty = UsageEventType.prompt ∨ ty = UsageEventType.chat ∨
      ty = UsageEventType.agent)
    (hlt : u.usageQuota.promptsUsed < u.usageQuota.promptsPerMonth) :
    (trackUsage u ty f now).1 = TrackOutcome.success ∧
    (trackUsage u ty f now).2.usageQuota.promptsUsed =
      u.usageQuota.promptsUsed + 1 := by
  unfold trackUsage
  rw [if_pos hf, if_pos hty, if_neg (by intro hc; exact hc.1 (Or.inr hlt))]
  simp

/-- A quota-counted tracking call with an entitled feature, a finite quota
and no remaining prompts fails with 429 and leaves the user unchanged. -/
lemma trackUsage_exceeded_step (u : User) (ty : UsageEventType) (f : String)
    (now : Int) (hf : f ∈ u.features)
    (hty : ty = UsageEventType.prompt ∨ ty = UsageEventType.chat ∨
      ty = UsageEventType.agent)
    (hm : u.usageQuota.promptsPerMonth ≠ -1)
    (hge : ¬ u.usageQuota.promptsUsed < u.usageQuota.promptsPerMonth) :
    trackUsage u ty f now = (TrackOutcome.usageLimitExceeded, u) := by
  unfold trackUsage
  rw [if_pos hf, if_pos hty, if_pos ⟨fun hc => hc.elim hm hge, hm⟩]

/-- After `i ≤ N` quota-counted calls from a fresh counter with quota `N`,
`promptsUsed` is exactly `i`, the quota bound is still `N`, and the
entitled feature is still entitled. -/
lemma trackN_state (u : User) (ty : UsageEventType) (f : String) (now : Int)
    (N : Nat) (hm : u.usageQuota.promptsPerMonth = (N : Int))
    (h0 : u.usageQuota.promptsUsed = 0) (hf : f ∈ u.features)
    (hty : ty = UsageEventType.prompt ∨ ty = UsageEventType.chat ∨
      ty = UsageEventType.agent) :
    ∀ i, i ≤ N →
      (trackN u ty f now i).usageQuota.promptsUsed = (i : Int) ∧
      (trackN u ty f now i).usageQuota.promptsPerMonth = (N : Int) ∧
      f ∈ (trackN u ty f now i).features := by
  intro i
  induction i with
  | zero => exact fun _ => ⟨h0, hm, hf⟩
  | succ n ih =>
      intro hn
      obtain ⟨hu, hmp, hfe⟩ := ih (Nat.le_of_succ_le hn)
      have hlt : (trackN u ty f now n).usageQuota.promptsUsed <
          (trackN u ty f now n).usageQuota.promptsPerMonth := by
        rw [hu, hmp]
        exact_mod_cast Nat.lt_of_succ_le hn
      have step := trackUsage_success_step (trackN u ty f now n) ty f now hfe hty hlt
      have pres := trackUsage_preserves (trackN u ty f now n) ty f now
      refine ⟨?_, ?_, ?_⟩
      · show (trackUsage (trackN u ty f now n) ty f now).2.usageQuota.promptsUsed = _
        rw [step.2, hu]
        push_cast
        ring
      · show (trackUsage (trackN u ty f now n) ty f now).2.usageQuota.promptsPerMonth = _
        rw [pres.1, hmp]
      · show f ∈ (trackUsage (trackN u ty f now n) ty f now).2.features
        rw [pres.2.2.2.1]
        exact hfe

/-- One tracking step keeps `promptsUsed` within a finite quota bound. -/
lemma trackUsage_le_step (u : User) (ty : UsageEventType) (f : String)
    (now : Int) (hm : u.usageQuota.promptsPerMonth ≠ -1)
    (h : u.usageQuota.promptsUsed ≤ u.usageQuota.promptsPerMonth) :
    (trackUsage u ty f now).2.usageQuota.promptsUsed ≤
      u.usageQuota.promptsPerMonth := by
  unfold trackUsage
  split_ifs with h1 h2 h3
  · exact h
  · have : u.usageQuota.promptsUsed < u.usageQuota.promptsPerMonth := by
      rcases not_and_or.mp h3 with hc | hc
      · rcases not_not.mp hc with hc' | hc'
        · exact absurd hc' hm
        · exact hc'
      · exact absurd hm (not_not.mpr (not_not.mp hc))
    simpa using this
  · exact h
  · exact h

/-- The quota bound itself is never changed by an arbitrary sequence of
tracking calls. -/
lemma trackSeq_promptsPerMonth (calls : List (UsageEventType × String))
    (now : Int) : ∀ u : User,
    (trackSeq u calls now).usageQuota.promptsPerMonth =
      u.usageQuota.promptsPerMonth := by
  induction calls with
  | nil => intro u; rfl
  | cons c cs ih =>
      intro u
      have : trackSeq u (c :: cs) now =
          trackSeq (trackUsage u c.1 c.2 now).2 cs now := rfl
      rw [this, ih, (trackUsage_preserves u c.1 c.2 now).1]

/-- An arbitrary sequence of tracking calls keeps `promptsUsed` within a
finite quota bound. -/
lemma trackSeq_le (calls : List (UsageEventType × String)) (now : Int) :
    ∀ u : User, u.usageQuota.promptsPerMonth ≠ -1 →
    u.usageQuota.promptsUsed ≤ u.usageQuota.promptsPerMonth →
    (trackSeq u calls now).usageQuota.promptsUsed ≤
      (trackSeq u calls now).usageQuota.promptsPerMonth := by
  induction calls with
  | nil => intro u _ h; exact h
  | cons c cs ih =>
      intro u hm h
      have hstep : trackSeq u (c :: cs) now =
          trackSeq (trackUsage u c.1 c.2 now).2 cs now := rfl
      have pres := trackUsage_preserves u c.1 c.2 now
      rw [hstep]
      exact ih (trackUsage u c.1 c.2 now).2
        (by rw [pres.1]; exact hm)
        (by rw [pres.1]; exact trackUsage_le_step u c.1 c.2 now hm h)

/-- If a tracking call changed `promptsUsed` under a finite quota, there
was room: `promptsUsed < promptsPerMonth` before the call. -/
lemma trackUsage_increment_requires_room (u : User) (ty : UsageEventType)
    (f : String) (now : Int) (hm : u.usageQuota.promptsPerMonth ≠ -1)
    (hne : (trackUsage u ty f now).2.usageQuota.promptsUsed ≠
      u.usageQuota.promptsUsed) :
    u.usageQuota.promptsUsed < u.usageQuota.promptsPerMonth := by
  revert hne
  unfold trackUsage
  split_ifs with h1 h2 h3
  · intro hne; exact absurd rfl hne
  · intro _
    rcases not_and_or.mp h3 with hc | hc
    · rcases not_not.mp hc with h4 | h4
      · exact absurd h4 hm
      · exact h4
    · exact absurd (not_not.mp hc) hm
  · intro hne; exact absurd rfl hne
  · intro hne; exact absurd rfl hne

/-! Concrete users used to instantiate the theorems below. -/

/-- A concrete fan-tier user as created by the new-user branch of
`POST /subscription/verify`. -/
def baseUser : User :=
  { userId := "u1",
    email := none,
    subscription :=
      { tier := .fan, status := .active, startDate := 0, endDate := none,
        renewalDate := none, goDaddySubscriptionId := none,
        goDaddyCustomerId := none, trialEndDate := none,
        isTrialActive := false },
    usageQuota :=
      { promptsPerMonth := 75, promptsUsed := 0, resetDate := 1000,
        lastResetDate := none },
    features := ["chat", "agent", "codeCompletion"],
    metadata :=
      { extensionVersion := none, lastActiveDate := none,
        installationId := none, source := none } }

/-- A fan-tier user whose quota is exhausted and whose reset date has
already passed. -/
def exhaustedStaleUser : User :=
  { baseUser with
      usageQuota :=
        { promptsPerMonth := 75, promptsUsed := 75, resetDate := 0,
          lastResetDate := none } }

/-- A fan-tier user with five prompts used and reset date 100. -/
def quotaUserA : User :=
  { baseUser with
      usageQuota :=
        { promptsPerMonth := 75, promptsUsed := 5, resetDate := 100,
          lastResetDate := none } }

/-- A user with a tiny two-prompt monthly quota. -/
def smallQuotaUser : User :=
  { baseUser with
      usageQuota :=
        { promptsPerMonth := 2, promptsUsed := 0, resetDate := 1000,
          lastResetDate := none } }

/-- An enterprise user linked to GoDaddy subscription id `sub-1`. -/
def subUser : User :=
  { baseUser with
      subscription :=
        { baseUser.subscription with
            tier := .enterprise,
            goDaddySubscriptionId := some "sub-1" } }

/-- A user with an unlimited quota and three prompts used. -/
def unlimitedUser : User :=
  { baseUser with
      usageQuota :=
        { promptsPerMonth := -1, promptsUsed := 3, resetDate := 1000,
          lastResetDate := none } }

/-! Claim theorems. -/

/-- C1, counterexample: the usage-tracking path performs no quota rollover.
For a user whose reset date (0) has long passed at request time 1000,
the claim demands a fresh window (`promptsUsed = 0`, `lastResetDate = now`,
`resetDate = now + 30d`) before the quota check, so the call would succeed;
the code instead rejects with 429 and leaves every quota field stale. -/
theorem c1_counterexample :
    (1000 : Int) ≥ exhaustedStaleUser.usageQuota.resetDate ∧
    (trackUsage exhaustedStaleUser UsageEventType.chat "chat" 1000).1 =
      TrackOutcome.usageLimitExceeded ∧
    (trackUsage exhaustedStaleUser UsageEventType.chat "chat" 1000).2.usageQuota.promptsUsed
      = 75 ∧
    (trackUsage exhaustedStaleUser UsageEventType.chat "chat" 1000).2.usageQuota.resetDate
      = 0 ∧
    (trackUsage exhaustedStaleUser UsageEventType.chat "chat" 1000).2.usageQuota.lastResetDate
      ≠ some 1000 := by
  decide

/-- C1, amended: only the subscription-verification path rolls the quota
over, and only when `resetDate < now` strictly; it zeroes `promptsUsed`
and moves `resetDate` thirty days out but never touches `lastResetDate`.
The usage-tracking path performs no rollover at all: it leaves `resetDate`
and `lastResetDate` as stored and never decreases `promptsUsed`. -/
theorem c1_rollover_only_on_verify (u : User) (ev src : Option String)
    (ty : UsageEventType) (f : String) (now : Int)
    (h : u.usageQuota.resetDate < now) :
    (verifyExistingUserUpdate u ev src now).usageQuota.promptsUsed = 0 ∧
    (verifyExistingUserUpdate u ev src now).usageQuota.resetDate =
      now + thirtyDays ∧
    (verifyExistingUserUpdate u ev src now).usageQuota.lastResetDate =
      u.usageQuota.lastResetDate ∧
    (trackUsage u ty f now).2.usageQuota.resetDate =
      u.usageQuota.resetDate ∧
    (trackUsage u ty f now).2.usageQuota.lastResetDate =
      u.usageQuota.lastResetDate ∧
    u.usageQuota.promptsUsed ≤ (trackUsage u ty f now).2.usageQuota.promptsUsed := by
  have pres := trackUsage_preserves u ty f now
  refine ⟨?_, ?_, ?_, pres.2.1, pres.2.2.1, pres.2.2.2.2⟩ <;>
    simp [verifyExistingUserUpdate, maybeRolloverQuota, h]

/-- C1, witness for the amended theorem at a concrete stale-quota user. -/
theorem c1_rollover_witness :
    (verifyExistingUserUpdate exhaustedStaleUser none none 1000).usageQuota.promptsUsed
      = 0 ∧
    (trackUsage exhaustedStaleUser UsageEventType.chat "chat" 1000).2.usageQuota.resetDate
      = exhaustedStaleUser.usageQuota.resetDate := by
  have h := c1_rollover_only_on_verify exhaustedStaleUser none none
    UsageEventType.chat "chat" 1000 (by decide)
  exact ⟨h.1, h.2.2.2.1⟩

/-- C2: with a finite quota of `N` prompts and a fresh counter, `N`
quota-counted tracking calls for an entitled feature all succeed, the
`(N+1)`-th fails with 429, the failing call leaves the user record
unchanged, and `promptsUsed` stays at `N`. -/
theorem c2_quota_exhaustion (u : User) (ty : UsageEventType) (f : String)
    (now : Int) (N : Nat)
    (hm : u.usageQuota.promptsPerMonth = (N : Int))
    (h0 : u.usageQuota.promptsUsed = 0)
    (hf : f ∈ u.features)
    (hty : ty = UsageEventType.prompt ∨ ty = UsageEventType.chat ∨
      ty = UsageEventType.agent) :
    (∀ i, i < N →
      (trackUsage (trackN u ty f now i) ty f now).1 = TrackOutcome.success) ∧
    (trackUsage (trackN u ty f now N) ty f now).1 =
      TrackOutcome.usageLimitExceeded ∧
    (trackUsage (trackN u ty f now N) ty f now).2 = trackN u ty f now N ∧
    (trackN u ty f now N).usageQuota.promptsUsed = (N : Int) := by
  have hstate := trackN_state u ty f now N hm h0 hf hty
  obtain ⟨huN, hmpN, hfeN⟩ := hstate N le_rfl
  have hx := trackUsage_exceeded_step (trackN u ty f now N) ty f now hfeN hty
    (by rw [hmpN]; omega) (by rw [huN, hmpN]; omega)
  refine ⟨?_, by rw [hx], by rw [hx], huN⟩
  intro i hi
  obtain ⟨hu, hmp, hfe⟩ := hstate i (Nat.le_of_lt hi)
  have hlt : (trackN u ty f now i).usageQuota.promptsUsed <
      (trackN u ty f now i).usageQuota.promptsPerMonth := by
    rw [hu, hmp]
    exact_mod_cast hi
  exact (trackUsage_success_step (trackN u ty f now i) ty f now hfe hty hlt).1

/-- C2, witness: with a two-prompt quota the third call is rejected and
the counter stays at two. -/
theorem c2_witness :
    (trackUsage (trackN smallQuotaUser UsageEventType.chat "chat" 0 2)
        UsageEventType.chat "chat" 0).1 = TrackOutcome.usageLimitExceeded ∧
    (trackN smallQuotaUser UsageEventType.chat "chat" 0 2).usageQuota.promptsUsed
      = ((2 : Nat) : Int) := by
  have h := c2_quota_exhaustion smallQuotaUser UsageEventType.chat "chat" 0 2
    (by decide) (by decide) (by decide) (Or.inr (Or.inl rfl))
  exact ⟨h.2.1, h.2.2.2⟩

/-- C3: every tier-change path — the `PUT /subscription/update/:userId`
route, the webhook created handler, and the webhook updated handler when a
truthy plan id is present — ends with `features` and `promptsPerMonth`
overwritten from the tier configuration of the applied tier while
`promptsUsed` is untouched; and the tier configuration gives 75 prompts to
fan and −1 (unlimited) to developer and enterprise. -/
theorem c3_tier_change (u : User) (t : SubscriptionTier)
    (st : SubscriptionStatus) (g1 g2 : Option String)
    (sid cid planId : String) (em pid stat : Option String) (now : Int)
    (hpid : jsTruthy pid = true) :
    (updateSubscription u t st g1 g2).features =
      (getTierConfiguration t).features ∧
    (updateSubscription u t st g1 g2).usageQuota.promptsPerMonth =
      (getTierConfiguration t).promptsPerMonth ∧
    (updateSubscription u t st g1 g2).usageQuota.promptsUsed =
      u.usageQuota.promptsUsed ∧
    (applySubscriptionCreated u sid cid planId em now).features =
      (getTierConfiguration (mapPlanIdToTier planId)).features ∧
    (applySubscriptionCreated u sid cid planId em now).usageQuota.promptsPerMonth =
      (getTierConfiguration (mapPlanIdToTier planId)).promptsPerMonth ∧
    (applySubscriptionCreated u sid cid planId em now).usageQuota.promptsUsed =
      u.usageQuota.promptsUsed ∧
    (applySubscriptionUpdated u pid stat).features =
      (getTierConfiguration (mapPlanIdToTier (pid.getD ""))).features ∧
    (applySubscriptionUpdated u pid stat).usageQuota.promptsPerMonth =
      (getTierConfiguration (mapPlanIdToTier (pid.getD ""))).promptsPerMonth ∧
    (applySubscriptionUpdated u pid stat).usageQuota.promptsUsed =
      u.usageQuota.promptsUsed ∧
    (getTierConfiguration t).promptsPerMonth =
      (if t = SubscriptionTier.fan then 75 else -1) := by
  refine ⟨?_, ?_, ?_, ?_, ?_, ?_, ?_, ?_, ?_, ?_⟩
  · simp [updateSubscription]
  · simp [updateSubscription]
  · simp [updateSubscription]
  · simp [applySubscriptionCreated]
  · simp [applySubscriptionCreated]
  · simp [applySubscriptionCreated]
  · by_cases hs : jsTruthy stat = true <;>
      simp [applySubscriptionUpdated, hpid, hs]
  · by_cases hs : jsTruthy stat = true <;>
      simp [applySubscriptionUpdated, hpid, hs]
  · by_cases hs : jsTruthy stat = true <;>
      simp [applySubscriptionUpdated, hpid, hs]
  · cases t <;> simp [getTierConfiguration]

/-- C3, witness: updating a concrete user to developer, and a webhook
update carrying plan id scale-developer. -/
theorem c3_witness :
    (updateSubscription baseUser SubscriptionTier.developer
        SubscriptionStatus.active none none).usageQuota.promptsUsed =
      baseUser.usageQuota.promptsUsed ∧
    (applySubscriptionUpdated baseUser (some "scale-developer") none).features =
      (getTierConfiguration
        (mapPlanIdToTier ((some "scale-developer").getD ""))).features := by
  have h := c3_tier_change baseUser SubscriptionTier.developer
    SubscriptionStatus.active none none "sub-1" "cust-1" "scale-developer"
    none (some "scale-developer") none 0 (by decide)
  exact ⟨h.2.2.1, h.2.2.2.2.2.2.1⟩

/-- C4: starting from any state whose `promptsUsed` is within a finite
quota, any sequence of tracking calls keeps it within the (unchanged)
quota, and a single call changes `promptsUsed` only when there was room. -/
theorem c4_quota_never_exceeded (u : User)
    (calls : List (UsageEventType × String)) (ty : UsageEventType)
    (f : String) (now : Int)
    (hm : u.usageQuota.promptsPerMonth ≠ -1)
    (h : u.usageQuota.promptsUsed ≤ u.usageQuota.promptsPerMonth) :
    (trackSeq u calls now).usageQuota.promptsUsed ≤
      (trackSeq u calls now).usageQuota.promptsPerMonth ∧
    (trackSeq u calls now).usageQuota.promptsPerMonth =
      u.usageQuota.promptsPerMonth ∧
    ((trackUsage u ty f now).2.usageQuota.promptsUsed ≠
        u.usageQuota.promptsUsed →
      u.usageQuota.promptsUsed < u.usageQuota.promptsPerMonth) :=
  ⟨trackSeq_le calls now u hm h, trackSeq_promptsPerMonth calls now u,
   trackUsage_increment_requires_room u ty f now hm⟩

/-- C4, witness: one chat call against the two-prompt user. -/
theorem c4_witness :
    (trackSeq smallQuotaUser [(UsageEventType.chat, "chat")] 0).usageQuota.promptsUsed ≤
      (trackSeq smallQuotaUser [(UsageEventType.chat, "chat")] 0).usageQuota.promptsPerMonth :=
  (c4_quota_never_exceeded smallQuotaUser [(UsageEventType.chat, "chat")]
    UsageEventType.chat "chat" 0 (by decide) (by decide)).1

/-- C5: the four non-quota-counted event types leave the user record
(hence `promptsUsed`, `promptsPerMonth` and `resetDate`) completely
unchanged and never produce the 429 quota outcome. -/
theorem c5_non_quota_types_frame (u : User) (f : String) (now : Int) :
    ((trackUsage u UsageEventType.code_completion f now).2 = u ∧
      (trackUsage u UsageEventType.code_completion f now).1 ≠
        TrackOutcome.usageLimitExceeded) ∧
    ((trackUsage u UsageEventType.dependency_visualization f now).2 = u ∧
      (trackUsage u UsageEventType.dependency_visualization f now).1 ≠
        TrackOutcome.usageLimitExceeded) ∧
    ((trackUsage u UsageEventType.knowledge_base f now).2 = u ∧
      (trackUsage u UsageEventType.knowledge_base f now).1 ≠
        TrackOutcome.usageLimitExceeded) ∧
    ((trackUsage u UsageEventType.fine_tuning f now).2 = u ∧
      (trackUsage u UsageEventType.fine_tuning f now).1 ≠
        TrackOutcome.usageLimitExceeded) := by
  refine ⟨⟨?_, ?_⟩, ⟨?_, ?_⟩, ⟨?_, ?_⟩, ⟨?_, ?_⟩⟩ <;>
    (unfold trackUsage; split_ifs with h1 h2 <;> simp_all)

/-- C6, counterexample: the claim requires that when `now ≥ resetDate` one
application of the rollover yields `promptsUsed = 0`, `lastResetDate = now`
and `resetDate > now`. At `now = resetDate = 100` the route's strict guard
does not fire, so `promptsUsed` stays 5 and `resetDate` stays 100; and even
at `now = 150 > resetDate`, `lastResetDate` is never stamped. -/
theorem c6_counterexample :
    (100 : Int) ≥ quotaUserA.usageQuota.resetDate ∧
    (maybeRolloverQuota quotaUserA 100).usageQuota.promptsUsed ≠ 0 ∧
    ¬ (100 : Int) < (maybeRolloverQuota quotaUserA 100).usageQuota.resetDate ∧
    (150 : Int) ≥ quotaUserA.usageQuota.resetDate ∧
    (maybeRolloverQuota quotaUserA 150).usageQuota.lastResetDate ≠ some 150 := by
  decide

/-- C6, amended: the route-inline rollover is idempotent and triggers only
strictly after the reset date: when `now ≤ resetDate` one or two
applications change nothing; when `resetDate < now` one application zeroes
`promptsUsed` and sets `resetDate = now + 30d > now`; `lastResetDate` is
never modified by it. Only the schema method `resetUsageQuota`, which no
route invokes, stamps `lastResetDate = now` (unconditionally). -/
theorem c6_rollover_behaviour (u : User) (now : Int) :
    (now ≤ u.usageQuota.resetDate →
      maybeRolloverQuota u now = u ∧
      maybeRolloverQuota (maybeRolloverQuota u now) now = u) ∧
    (u.usageQuota.resetDate < now →
      (maybeRolloverQuota u now).usageQuota.promptsUsed = 0 ∧
      (maybeRolloverQuota u now).usageQuota.resetDate = now + thirtyDays ∧
      now < (maybeRolloverQuota u now).usageQuota.resetDate) ∧
    (maybeRolloverQuota u now).usageQuota.lastResetDate =
      u.usageQuota.lastResetDate ∧
    (resetUsageQuota u now).usageQuota.promptsUsed = 0 ∧
    (resetUsageQuota u now).usageQuota.lastResetDate = some now ∧
    (resetUsageQuota u now).usageQuota.resetDate = now + thirtyDays := by
  by_cases h : u.usageQuota.resetDate < now
  · refine ⟨fun hle => absurd h (by omega), fun _ => ?_, ?_, ?_, ?_, ?_⟩ <;>
      (simp [maybeRolloverQuota, resetUsageQuota, h, thirtyDays]; try omega)
  · have hfix : maybeRolloverQuota u now = u := by
      simp [maybeRolloverQuota, h]
    refine ⟨fun _ => ⟨hfix, by rw [hfix, hfix]⟩, fun hlt => absurd hlt h,
      by rw [hfix], ?_, ?_, ?_⟩ <;> simp [resetUsageQuota]

/-- C6, witness for the amended theorem: below the reset date nothing
changes; strictly past it the counter is zeroed. -/
theorem c6_rollover_witness :
    maybeRolloverQuota quotaUserA 50 = quotaUserA ∧
    (maybeRolloverQuota quotaUserA 150).usageQuota.promptsUsed = 0 :=
  ⟨((c6_rollover_behaviour quotaUserA 50).1 (by decide)).1,
   ((c6_rollover_behaviour quotaUserA 150).2.1 (by decide)).1⟩

/-- C7: whenever the expired-webhook handler resolves a user by GoDaddy
subscription id, the saved user has status expired, end date now, tier
fan, the fan feature set and the fan 75-prompt quota, whatever the prior
tier was. -/
theorem c7_expired_downgrade (store : List User) (sid : String) (now : Int)
    (u : User) (h : findBySubscriptionId store sid = some u) :
    ∃ v, handleSubscriptionExpired store sid now = some v ∧
      v.subscription.status = SubscriptionStatus.expired ∧
      v.subscription.endDate = some now ∧
      v.subscription.tier = SubscriptionTier.fan ∧
      v.features = (getTierConfiguration SubscriptionTier.fan).features ∧
      v.usageQuota.promptsPerMonth = 75 := by
  refine ⟨applySubscriptionExpired u now, ?_, ?_, ?_, ?_, ?_, ?_⟩
  · simp [handleSubscriptionExpired, h]
  all_goals simp [applySubscriptionExpired, getTierConfiguration]

/-- C7, witness: expiring the enterprise user stored under sub-1. -/
theorem c7_expired_witness :
    ∃ v, handleSubscriptionExpired [subUser] "sub-1" 500 = some v ∧
      v.subscription.status = SubscriptionStatus.expired ∧
      v.subscription.endDate = some 500 ∧
      v.subscription.tier = SubscriptionTier.fan ∧
      v.features = (getTierConfiguration SubscriptionTier.fan).features ∧
      v.usageQuota.promptsPerMonth = 75 :=
  c7_expired_downgrade [subUser] "sub-1" 500 subUser (by decide)

/-- C9: the webhook signature gate runs only when both the configured
secret and the signature header are truthy; with the header absent, or
the secret absent from the environment, the request proceeds to event
parsing and dispatch and is never rejected with 401 — whatever HMAC the
crypto library would compute. -/
theorem c9_signature_gate_conditional (hmacHex : String → String → String)
    (secret signature : Option String) (body : String) :
    signatureGate hmacHex secret none body = GateResult.proceed ∧
    signatureGate hmacHex none signature body = GateResult.proceed := by
  constructor <;> simp [signatureGate, jsTruthy]

/-- C10: the verification and get-subscription responses compute
`promptsRemaining` as a bare difference with no unlimited special case and
no floor, so an unlimited user with a positive counter receives a value
below −1, while the usage-tracking response maps the same state to −1. -/
theorem c10_promptsRemaining_inconsistency (u : User)
    (hm : u.usageQuota.promptsPerMonth = -1)
    (hk : 0 < u.usageQuota.promptsUsed) :
    (verifyQuotaResponse u).promptsRemaining =
      u.usageQuota.promptsPerMonth - u.usageQuota.promptsUsed ∧
    (getSubscriptionQuotaResponse u).promptsRemaining =
      u.usageQuota.promptsPerMonth - u.usageQuota.promptsUsed ∧
    (trackQuotaResponse u).promptsRemaining =
      (if u.usageQuota.promptsPerMonth = -1 then -1
       else max 0 (u.usageQuota.promptsPerMonth - u.usageQuota.promptsUsed)) ∧
    (verifyQuotaResponse u).promptsRemaining = -1 - u.usageQuota.promptsUsed ∧
    (verifyQuotaResponse u).promptsRemaining < -1 ∧
    (getSubscriptionQuotaResponse u).promptsRemaining < -1 ∧
    (trackQuotaResponse u).promptsRemaining = -1 := by
  refine ⟨rfl, rfl, rfl, ?_, ?_, ?_, ?_⟩ <;>
    simp [verifyQuotaResponse, getSubscriptionQuotaResponse,
      trackQuotaResponse, hm] <;> omega

/-- C10, witness: the unlimited user with three prompts used gets −4 from
the verification formula and −1 from the tracking formula. -/
theorem c10_witness :
    (verifyQuotaResponse unlimitedUser).promptsRemaining =
      -1 - unlimitedUser.usageQuota.promptsUsed ∧
    (trackQuotaResponse unlimitedUser).promptsRemaining = -1 := by
  have h := c10_promptsRemaining_inconsistency unlimitedUser
    (by decide) (by decide)
  exact ⟨h.2.2.2.1, h.2.2.2.2.2.2⟩

end Scale
